import Mathlib

/-!
# Verification of `generate_qr_codes.py`

A shallow embedding of the batch QR-code generator: the script reads a CSV
file with pandas, validates that the `Name` and `SRN` columns are present,
and for each data row encodes the stripped `SRN` text as a QR image written
to `qr_codes/<SRN>.png`, printing one progress line per record.

The filesystem, the pandas CSV loader and the qrcode encoder are modelled
explicitly; the orchestration function `generate_qr_codes_from_csv` is a
line-by-line translation of the Python function of the same name.
-/

namespace QrGen

/-- A cell of a loaded DataFrame: either text, or the float NaN that pandas
substitutes for empty / NA-marked fields.  (Column-level numeric dtype
inference is not modelled; SRN values are treated as text, as in the
intended alphanumeric-identifier use of the script.) -/
inductive Cell where
  | str (s : String)
  | nan
deriving DecidableEq, Repr

/-- Python `str(value)` on a cell: a string renders as itself, the float
NaN renders as the literal text `"nan"`. -/
def cellToStr : Cell → String
  | Cell.str s => s
  | Cell.nan => "nan"

/-- The default NA markers of `pandas.read_csv`: a raw field equal to one
of these (in particular the empty field) is loaded as NaN. -/
def defaultNaValues : List String :=
  ["", "#N/A", "#N/A N/A", "#NA", "-1.#IND", "-1.#QNAN", "-NaN", "-nan",
   "1.#IND", "1.#QNAN", "<NA>", "N/A", "NA", "NULL", "NaN", "None",
   "n/a", "nan", "null"]

/-- Parsing of one raw CSV field by `pandas.read_csv`. -/
def parseCell (s : String) : Cell :=
  if s ∈ defaultNaValues then Cell.nan else Cell.str s

/-- Python `str.strip()`: remove leading and trailing whitespace
(modelled for ASCII whitespace characters). -/
def pyStrip (s : String) : String :=
  ⟨((s.data.dropWhile Char.isWhitespace).reverse.dropWhile
      Char.isWhitespace).reverse⟩

/-- A loaded pandas DataFrame: the header row and the parsed data rows. -/
structure DataFrame where
  columns : List String
  rows : List (List Cell)
deriving DecidableEq, Repr

/-- `row[col]` / `row.get(col)` on a DataFrame row: the cell under the
column's header position; a row shorter than the header is padded with
NaN by pandas, so a missing position reads as NaN. -/
def getCell (columns : List String) (row : List Cell) (col : String) : Cell :=
  match List.lookup col (columns.zip row) with
  | some c => c
  | none => Cell.nan

/-- Outcome of `pandas.read_csv` on an input path. -/
inductive ReadCsvResult where
  | ok (df : DataFrame)
  | fileNotFound
  | emptyData
deriving DecidableEq, Repr

/-- `pandas.read_csv`, modelled on an optional file content (`none` means
the path does not exist; the file content is the list of its lines, each
already split into raw fields).  pandas raises `FileNotFoundError` for a
missing path and `EmptyDataError` ("No columns to parse from file") only
when the file holds no lines at all; a file whose sole line is the header
loads as a DataFrame with zero rows.  Otherwise the first line is the
header and each further line is a data row, fields parsed per
`parseCell`. -/
def read_csv : Option (List (List String)) → ReadCsvResult
  | none => ReadCsvResult.fileNotFound
  | some [] => ReadCsvResult.emptyData
  | some (header :: rows) =>
      ReadCsvResult.ok ⟨header, rows.map (fun r => r.map parseCell)⟩

/-- The error-correction tiers of the qrcode library
(`qrcode.constants.ERROR_CORRECT_*`). -/
inductive ECLevel where
  | L | M | Q | H
deriving DecidableEq, Repr

/-- The configuration handed to `qrcode.QRCode(...)`: requested symbol
version, error-correction tier, box size and border width. -/
structure QRConfig where
  version : Nat
  error_correction : ECLevel
  box_size : Nat
  border : Nat
deriving DecidableEq, Repr

/-- A generated raster image, identified by everything the encoder is a
deterministic function of: the configuration passed to `qrcode.QRCode`,
the fill and background colors passed to `make_image`, and the payload
added with `add_data`.  The spec treats QR generation as an "opaque
external capability boundary" (§6), so the image is not modelled below
this interface. -/
structure QRImage where
  config : QRConfig
  fill_color : String
  back_color : String
  payload : String
deriving DecidableEq, Repr

/-- `qrcode` encoding pipeline: `QRCode(cfg)`, `add_data(payload)`,
`make(fit=True)`, `make_image(fill, back)`. -/
def make_image (cfg : QRConfig) (fill back payload : String) : QRImage :=
  ⟨cfg, fill, back, payload⟩

/-- Modelled from the spec: "decoding any generated image with a standard
QR decoder yields exactly the ... string used as input" (§8); the decoder
itself is outside this repository, so it is modelled as the exact inverse
of the encoding, per the QR standard the spec appeals to. -/
def decodeQR (img : QRImage) : String := img.payload

/-- The configuration literal built at lines 37–42 of the source:
version 1, `ERROR_CORRECT_L`, box size 10, border 4. -/
def fixedConfig : QRConfig := ⟨1, ECLevel.L, 10, 4⟩

/-- How the run of `generate_qr_codes_from_csv` ended: normal completion,
or one of the exceptions caught at the top level (`FileNotFoundError`,
`pd.errors.EmptyDataError`, or the generic `Exception` handler, which in
particular catches the `ValueError` raised for a missing column). -/
inductive RunOutcome where
  | success
  | fileNotFoundError
  | emptyDataError
  | exceptionCaught (msg : String)
deriving DecidableEq, Repr

/-- The observable effects of one run of the script: whether the
`qr_codes` directory was created (it always is — `mkdir(exist_ok=True)`
runs before the `try` block), the ordered file writes (path, image), the
console lines printed, the outcome, and the process exit code (the script
never calls `sys.exit`, so the process always exits with code 0). -/
structure RunResult where
  dirCreated : Bool
  writes : List (String × QRImage)
  console : List String
  outcome : RunOutcome
  exitCode : Nat
deriving DecidableEq, Repr

/-- The trimmed textual identifier of a row: `str(row['SRN']).strip()`. -/
def identifierOf (columns : List String) (row : List Cell) : String :=
  pyStrip (cellToStr (getCell columns row "SRN"))

/-- The output path for an identifier: `qr_codes / f"{srn}.png"`. -/
def outPath (srn : String) : String := "qr_codes/" ++ srn ++ ".png"

/-- The loop body (lines 29–54): extract and strip `SRN` and `Name`, look
up `Status` (the raw cell text if the column exists, else `"Unknown"`),
build the QR image with the fixed configuration, and produce the write
(path, image) together with the progress line printed for the record. -/
def processRow (columns : List String) (row : List Cell) :
    (String × QRImage) × String :=
  let srn := identifierOf columns row
  let name := pyStrip (cellToStr (getCell columns row "Name"))
  let status :=
    if "Status" ∈ columns then cellToStr (getCell columns row "Status")
    else "Unknown"
  let img := make_image fixedConfig "black" "white" srn
  let filepath := outPath srn
  ((filepath, img),
   "Generated QR code for " ++ name ++ " (SRN: " ++ srn ++ ", Status: "
     ++ status ++ ") -> " ++ filepath)

/-- Modelled from the spec: the loop body calls two external capabilities
that may raise — the qrcode encoder and `img.save` ("any other failure
(malformed row data, encoder failure, disk-write failure)" surfaces as a
generic ProcessingError, §7).  A failure oracle assigns to a data-row
index the exception message the body raises there, or `none` when both
the encode and the write succeed for that row. -/
def FailureOracle := Nat → Option String

/-- The per-record loop (lines 29–54), running the rows from index `k`
onward: each successful row contributes its write and its progress line;
the first row whose body raises (per the failure oracle) contributes
neither — the exception propagates, ending the loop — and its message is
returned.  Result: (writes, progress lines, raised message if any). -/
def runRows (columns : List String) (failAt : FailureOracle) :
    List (List Cell) → Nat →
      List (String × QRImage) × List String × Option String
  | [], _ => ([], [], none)
  | r :: rest, k =>
      match failAt k with
      | some msg => ([], [], some msg)
      | none =>
          let pr := processRow columns r
          let further := runRows columns failAt rest (k + 1)
          (pr.1 :: further.1, pr.2 :: further.2.1, further.2.2)

/-- Line-by-line translation of `generate_qr_codes_from_csv(csv_file_path)`
under a given failure oracle for the loop body.  The input file is `none`
when the path does not exist, else the parsed lines of the file.  An
exception raised inside the loop propagates — it is not caught
per-record — and reaches the same top-level `except Exception` handler as
the pre-loop ValueError, printed as `Error: <message>` after whatever
progress lines were already printed. -/
def generate_qr_codes_from_csv_with (csv_file_path : String)
    (file : Option (List (List String))) (failAt : FailureOracle) : RunResult :=
  match read_csv file with
  | ReadCsvResult.fileNotFound =>
      ⟨true, [],
       ["Error: CSV file '" ++ csv_file_path ++ "' not found!"],
       RunOutcome.fileNotFoundError, 0⟩
  | ReadCsvResult.emptyData =>
      ⟨true, [],
       ["Error: The CSV file is empty!"],
       RunOutcome.emptyDataError, 0⟩
  | ReadCsvResult.ok df =>
      if "Name" ∉ df.columns ∨ "SRN" ∉ df.columns then
        ⟨true, [],
         ["Error: CSV file must contain 'Name' and 'SRN' columns"],
         RunOutcome.exceptionCaught
           "CSV file must contain 'Name' and 'SRN' columns", 0⟩
      else
        let res := runRows df.columns failAt df.rows 0
        match res.2.2 with
        | some msg =>
            ⟨true, res.1,
             ("Found " ++ toString df.rows.length ++ " records in the CSV file")
               :: res.2.1 ++ ["Error: " ++ msg],
             RunOutcome.exceptionCaught msg, 0⟩
        | none =>
            ⟨true, res.1,
             ("Found " ++ toString df.rows.length ++ " records in the CSV file")
               :: res.2.1
               ++ ["\nAll QR codes have been generated and saved to the 'qr_codes' folder!"],
             RunOutcome.success, 0⟩

/-- A run in which every external encode and write succeeds: the
no-failure instance of `generate_qr_codes_from_csv_with`. -/
def generate_qr_codes_from_csv (csv_file_path : String)
    (file : Option (List (List String))) : RunResult :=
  generate_qr_codes_from_csv_with csv_file_path file (fun _ => none)

/-- The filesystem restricted to what the script touches: a map from
paths to image contents. -/
def FileSystem := String → Option QRImage

/-- Perform a list of writes in order; `img.save(filepath)` overwrites any
existing file at the path. -/
def applyWrites (fs : FileSystem) (ws : List (String × QRImage)) : FileSystem :=
  ws.foldl (fun f w => Function.update f w.1 (some w.2)) fs

/-! ## General lemmas about sequences of writes -/

theorem applyWrites_nil (fs : FileSystem) : applyWrites fs [] = fs := rfl

theorem applyWrites_cons (fs : FileSystem) (w : String × QRImage)
    (ws : List (String × QRImage)) :
    applyWrites fs (w :: ws) = applyWrites (Function.update fs w.1 (some w.2)) ws := rfl

/-- A path no write touches keeps its previous content. -/
theorem applyWrites_not_mem (fs : FileSystem) (ws : List (String × QRImage))
    (p : String) (hp : p ∉ ws.map Prod.fst) : applyWrites fs ws p = fs p := by
  induction ws generalizing fs with
  | nil => rfl
  | cons w t ih =>
      simp only [List.map_cons, List.mem_cons, not_or] at hp
      rw [applyWrites_cons, ih _ hp.2, Function.update_noteq hp.1]

/-- On a path some write touches, the final content does not depend on the
initial filesystem. -/
theorem applyWrites_mem_indep (fs₁ fs₂ : FileSystem)
    (ws : List (String × QRImage)) (p : String) (hp : p ∈ ws.map Prod.fst) :
    applyWrites fs₁ ws p = applyWrites fs₂ ws p := by
  induction ws generalizing fs₁ fs₂ with
  | nil => simp at hp
  | cons w t ih =>
      by_cases hpt : p ∈ t.map Prod.fst
      · rw [applyWrites_cons, applyWrites_cons, ih _ _ hpt]
      · simp only [List.map_cons, List.mem_cons] at hp
        rcases hp with hp | hp
        · subst hp
          rw [applyWrites_cons, applyWrites_cons,
            applyWrites_not_mem _ _ _ hpt, applyWrites_not_mem _ _ _ hpt,
            Function.update_same, Function.update_same]
        · exact absurd hp hpt

/-- Replaying the same list of writes a second time changes nothing:
the final content of every path is the last write to it, in both runs. -/
theorem applyWrites_replay (fs : FileSystem) (ws : List (String × QRImage)) :
    applyWrites (applyWrites fs ws) ws = applyWrites fs ws := by
  funext p
  by_cases hp : p ∈ ws.map Prod.fst
  · exact applyWrites_mem_indep _ _ _ _ hp
  · rw [applyWrites_not_mem _ _ _ hp, applyWrites_not_mem _ _ _ hp]

/-- If every write to path `p` carries the same content `c` and at least
one write touches `p`, the final content at `p` is `c`. -/
theorem applyWrites_all_eq (fs : FileSystem) (ws : List (String × QRImage))
    (p : String) (c : QRImage) (hmem : p ∈ ws.map Prod.fst)
    (hall : ∀ w ∈ ws, w.1 = p → w.2 = c) : applyWrites fs ws p = some c := by
  induction ws generalizing fs with
  | nil => simp at hmem
  | cons w t ih =>
      by_cases hpt : p ∈ t.map Prod.fst
      · exact (applyWrites_cons fs w t ▸
          ih _ hpt (fun x hx hxp => hall x (List.mem_cons_of_mem w hx) hxp))
      · simp only [List.map_cons, List.mem_cons] at hmem
        rcases hmem with hmem | hmem
        · rw [applyWrites_cons, applyWrites_not_mem _ _ _ hpt, ← hmem,
            Function.update_same, hall w (List.mem_cons_self w t) hmem.symm]
        · exact absurd hmem hpt

/-- Distinct identifiers map to distinct output paths. -/
theorem outPath_injective {s t : String} (h : outPath s = outPath t) : s = t := by
  unfold outPath at h
  have hd := congrArg String.data h
  simp only [String.data_append, List.append_assoc] at hd
  exact String.ext (List.append_cancel_right (List.append_cancel_left hd))

/-! ## Characterization of runs -/

/-- Under the no-failure oracle the loop processes every row, in order. -/
theorem runRows_none (columns : List String) (rows : List (List Cell))
    (k : Nat) :
    runRows columns (fun _ => none) rows k =
      (rows.map (fun r => (processRow columns r).1),
       rows.map (fun r => (processRow columns r).2), none) := by
  induction rows generalizing k with
  | nil => rfl
  | cons r rest ih => simp [runRows, ih]

/-- A run on a file whose header has both required columns processes every
data row in order: one write and one progress line per row, framed by the
count line and the completion banner. -/
theorem generate_ok (path : String) (header : List String)
    (rows : List (List String)) (hn : "Name" ∈ header) (hs : "SRN" ∈ header) :
    generate_qr_codes_from_csv path (some (header :: rows)) =
      ⟨true,
       rows.map (fun r => (processRow header (r.map parseCell)).1),
       ("Found " ++ toString rows.length ++ " records in the CSV file")
         :: rows.map (fun r => (processRow header (r.map parseCell)).2)
         ++ ["\nAll QR codes have been generated and saved to the 'qr_codes' folder!"],
       RunOutcome.success, 0⟩ := by
  simp [generate_qr_codes_from_csv, generate_qr_codes_from_csv_with,
    read_csv, hn, hs, runRows_none]

/-- The write produced for a row: the image of the row's trimmed
identifier, at the identifier's output path, with the fixed encoder
configuration. -/
theorem processRow_fst (columns : List String) (row : List Cell) :
    (processRow columns row).1 =
      (outPath (identifierOf columns row),
       make_image fixedConfig "black" "white" (identifierOf columns row)) := rfl

/-- A run on a file with the required columns, under an arbitrary failure
oracle: the count line prints first, then the loop runs; a raised
exception is printed as the trailing `Error:` line of the console, while
a clean loop ends with the completion banner. -/
theorem generate_with_ok (path : String) (header : List String)
    (rows : List (List String)) (failAt : FailureOracle)
    (hn : "Name" ∈ header) (hs : "SRN" ∈ header) :
    generate_qr_codes_from_csv_with path (some (header :: rows)) failAt =
      match (runRows header failAt (rows.map (fun r => r.map parseCell)) 0).2.2 with
      | some msg =>
          ⟨true,
           (runRows header failAt (rows.map (fun r => r.map parseCell)) 0).1,
           ("Found " ++ toString rows.length ++ " records in the CSV file")
             :: (runRows header failAt (rows.map (fun r => r.map parseCell)) 0).2.1
             ++ ["Error: " ++ msg],
           RunOutcome.exceptionCaught msg, 0⟩
      | none =>
          ⟨true,
           (runRows header failAt (rows.map (fun r => r.map parseCell)) 0).1,
           ("Found " ++ toString rows.length ++ " records in the CSV file")
             :: (runRows header failAt (rows.map (fun r => r.map parseCell)) 0).2.1
             ++ ["\nAll QR codes have been generated and saved to the 'qr_codes' folder!"],
           RunOutcome.success, 0⟩ := by
  simp [generate_qr_codes_from_csv_with, read_csv, hn, hs]

/-- The head character of an append is the head of its nonempty left
part. -/
theorem data_head_append (a x : String) (c : Char)
    (h : a.data.head? = some c) : (a ++ x).data.head? = some c := by
  rw [String.data_append]
  cases hd : a.data with
  | nil => simp [hd] at h
  | cons d t =>
      rw [hd] at h
      simpa using h

/-- A console line whose first character is not `E` is not an
`Error: ...` diagnostic. -/
theorem not_error_line (l : String) (c : Char) (hc : l.data.head? = some c)
    (hne : c ≠ 'E') : ¬ ∃ m : String, l = "Error: " ++ m := by
  rintro ⟨m, rfl⟩
  have hE : (("Error: " : String) ++ m).data.head? = some 'E' :=
    data_head_append "Error: " m 'E' (by decide)
  rw [hE] at hc
  exact hne (Option.some.inj hc).symm

/-- The record-count line starts with the character `F`. -/
theorem found_line_head (n : Nat) :
    ("Found " ++ toString n ++ " records in the CSV file" : String).data.head?
      = some 'F' :=
  data_head_append _ _ _ (data_head_append _ _ _ (by decide))

/-- Every per-record progress line starts with the character `G` of
"Generated QR code for ...". -/
theorem processRow_snd_head (columns : List String) (row : List Cell) :
    ((processRow columns row).2).data.head? = some 'G' :=
  data_head_append _ _ _ (data_head_append _ _ _ (data_head_append _ _ _
    (data_head_append _ _ _ (data_head_append _ _ _ (data_head_append _ _ _
      (data_head_append _ _ _ (by decide)))))))

/-- Every progress line the loop emits is the progress line of some
row. -/
theorem runRows_lines (columns : List String) (failAt : FailureOracle)
    (rows : List (List Cell)) (k : Nat) :
    ∀ l ∈ (runRows columns failAt rows k).2.1,
      ∃ r : List Cell, l = (processRow columns r).2 := by
  induction rows generalizing k with
  | nil => intro l hl; simp [runRows] at hl
  | cons r rest ih =>
      intro l hl
      cases hfa : failAt k with
      | some msg => simp [runRows, hfa] at hl
      | none =>
          simp only [runRows, hfa, List.mem_cons] at hl
          rcases hl with hl | hl
          · exact ⟨r, hl⟩
          · exact ih (k + 1) l hl

/-! ## Claims -/

/-- **C1.** For every well-formed input file with N data rows containing
the required columns, running the generator writes exactly N image files,
each at path `qr_codes/<identifier>.png`, where identifier is the trimmed
text of that row's SRN field. -/
theorem writes_one_image_per_row (path : String) (header : List String)
    (rows : List (List String)) (hn : "Name" ∈ header) (hs : "SRN" ∈ header) :
    (generate_qr_codes_from_csv path (some (header :: rows))).writes.length
        = rows.length ∧
      (generate_qr_codes_from_csv path (some (header :: rows))).writes.map
          Prod.fst
        = rows.map (fun r =>
            "qr_codes/" ++ identifierOf header (r.map parseCell) ++ ".png") := by
  rw [generate_ok path header rows hn hs]
  constructor
  · simp
  · simp only [List.map_map]
    exact List.map_congr_left fun r _ => rfl

/-- Witness for C1 on a two-row input. -/
theorem writes_one_image_per_row_witness :
    ("Name" ∈ ["Name", "SRN"]) ∧ ("SRN" ∈ ["Name", "SRN"]) ∧
      ((generate_qr_codes_from_csv "paid_list_with_status.csv"
            (some [["Name", "SRN"], ["Alice", " X1 "], ["Bob", "Y2"]])).writes.length
          = [["Alice", " X1 "], ["Bob", "Y2"]].length ∧
        (generate_qr_codes_from_csv "paid_list_with_status.csv"
              (some [["Name", "SRN"], ["Alice", " X1 "], ["Bob", "Y2"]])).writes.map
            Prod.fst
          = [["Alice", " X1 "], ["Bob", "Y2"]].map (fun r =>
              "qr_codes/" ++ identifierOf ["Name", "SRN"] (r.map parseCell) ++ ".png")) :=
  ⟨by decide, by decide,
   writes_one_image_per_row "paid_list_with_status.csv" ["Name", "SRN"]
     [["Alice", " X1 "], ["Bob", "Y2"]] (by decide) (by decide)⟩

/-- **C2.** For every record processed, decoding the generated image with a
standard QR decoder returns exactly the trimmed identifier string that was
used as the encoding payload: the encode-then-decode round-trip is the
identity on trimmed identifiers. -/
theorem decode_roundtrip (path : String) (header : List String)
    (rows : List (List String)) (hn : "Name" ∈ header) (hs : "SRN" ∈ header) :
    (generate_qr_codes_from_csv path (some (header :: rows))).writes.map
        (fun w => decodeQR w.2)
      = rows.map (fun r => identifierOf header (r.map parseCell)) := by
  rw [generate_ok path header rows hn hs]
  simp only [List.map_map]
  exact List.map_congr_left fun r _ => rfl

/-- Witness for C2 on a two-row input. -/
theorem decode_roundtrip_witness :
    ("Name" ∈ ["Name", "SRN"]) ∧ ("SRN" ∈ ["Name", "SRN"]) ∧
      (generate_qr_codes_from_csv "paid_list_with_status.csv"
            (some [["Name", "SRN"], ["Alice", " X1 "], ["Bob", "Y2"]])).writes.map
          (fun w => decodeQR w.2)
        = [["Alice", " X1 "], ["Bob", "Y2"]].map (fun r =>
            identifierOf ["Name", "SRN"] (r.map parseCell)) :=
  ⟨by decide, by decide,
   decode_roundtrip "paid_list_with_status.csv" ["Name", "SRN"]
     [["Alice", " X1 "], ["Bob", "Y2"]] (by decide) (by decide)⟩

/-- **C3.** Every generated image, in every run, is encoded with the same
fixed configuration: QR symbol version 1, error-correction tier Low,
box size 10, border 4 modules, black foreground on white background. -/
theorem fixed_encoding_config (path : String)
    (file : Option (List (List String))) (w : String × QRImage)
    (hw : w ∈ (generate_qr_codes_from_csv path file).writes) :
    w.2.config = ⟨1, ECLevel.L, 10, 4⟩ ∧
      w.2.fill_color = "black" ∧ w.2.back_color = "white" := by
  match file with
  | none =>
      simp [generate_qr_codes_from_csv, generate_qr_codes_from_csv_with,
        read_csv] at hw
  | some [] =>
      simp [generate_qr_codes_from_csv, generate_qr_codes_from_csv_with,
        read_csv] at hw
  | some (header :: rows) =>
      by_cases hcols : "Name" ∉ header ∨ "SRN" ∉ header
      · simp [generate_qr_codes_from_csv, generate_qr_codes_from_csv_with,
          read_csv, hcols] at hw
      · push_neg at hcols
        rw [generate_ok path header rows hcols.1 hcols.2] at hw
        simp only [List.mem_map] at hw
        obtain ⟨r, -, hr⟩ := hw
        rw [processRow_fst] at hr
        subst hr
        exact ⟨rfl, rfl, rfl⟩

/-- Witness for C3 on a concrete write of a concrete run. -/
theorem fixed_encoding_config_witness :
    (("qr_codes/X1.png", make_image fixedConfig "black" "white" "X1")
        ∈ (generate_qr_codes_from_csv "paid_list_with_status.csv"
            (some [["Name", "SRN"], ["Alice", "X1"]])).writes) ∧
      ((("qr_codes/X1.png", make_image fixedConfig "black" "white" "X1") :
            String × QRImage).2.config = ⟨1, ECLevel.L, 10, 4⟩ ∧
        (("qr_codes/X1.png", make_image fixedConfig "black" "white" "X1") :
            String × QRImage).2.fill_color = "black" ∧
        (("qr_codes/X1.png", make_image fixedConfig "black" "white" "X1") :
            String × QRImage).2.back_color = "white") :=
  ⟨by decide,
   fixed_encoding_config "paid_list_with_status.csv"
     (some [["Name", "SRN"], ["Alice", "X1"]])
     ("qr_codes/X1.png", make_image fixedConfig "black" "white" "X1")
     (by decide)⟩

/-- **C4, counterexample.** A file holding only a header row (zero data
rows) does not abort: pandas parses it to an empty DataFrame, so the run
completes normally — "Found 0 records", the completion banner, no error
diagnostic — with zero images written.  `pd.errors.EmptyDataError` is
raised only when the file has no parseable content at all. -/
theorem header_only_runs_to_success :
    (generate_qr_codes_from_csv "paid_list_with_status.csv"
          (some [["Name", "SRN"]])).outcome = RunOutcome.success ∧
      (generate_qr_codes_from_csv "paid_list_with_status.csv"
          (some [["Name", "SRN"]])).console
        = ["Found 0 records in the CSV file",
           "\nAll QR codes have been generated and saved to the 'qr_codes' folder!"] ∧
      (generate_qr_codes_from_csv "paid_list_with_status.csv"
          (some [["Name", "SRN"]])).writes = [] := by
  exact ⟨rfl, rfl, rfl⟩

/-- **C4, amended.** A completely empty input file (no parseable content,
not even a header) aborts with the EmptyInputError-class diagnostic and
zero images written; a file with a header but zero data rows is not an
error — when its header has the required columns the run completes
normally, still writing zero images. -/
theorem empty_file_aborts_header_only_succeeds (path : String) :
    ((generate_qr_codes_from_csv path (some [])).outcome
        = RunOutcome.emptyDataError ∧
      (generate_qr_codes_from_csv path (some [])).console
        = ["Error: The CSV file is empty!"] ∧
      (generate_qr_codes_from_csv path (some [])).writes = []) ∧
    (∀ header : List String, "Name" ∈ header → "SRN" ∈ header →
      (generate_qr_codes_from_csv path (some [header])).outcome
          = RunOutcome.success ∧
        (generate_qr_codes_from_csv path (some [header])).writes = []) := by
  refine ⟨⟨rfl, rfl, rfl⟩, fun header hn hs => ?_⟩
  rw [generate_ok path header [] hn hs]
  exact ⟨rfl, rfl⟩

/-- Witness for the amended C4. -/
theorem empty_file_aborts_header_only_succeeds_witness :
    (((generate_qr_codes_from_csv "x.csv" (some [])).outcome
            = RunOutcome.emptyDataError ∧
        (generate_qr_codes_from_csv "x.csv" (some [])).console
            = ["Error: The CSV file is empty!"] ∧
        (generate_qr_codes_from_csv "x.csv" (some [])).writes = []) ∧
      (∀ header : List String, "Name" ∈ header → "SRN" ∈ header →
        (generate_qr_codes_from_csv "x.csv" (some [header])).outcome
            = RunOutcome.success ∧
          (generate_qr_codes_from_csv "x.csv" (some [header])).writes = [])) ∧
      ("Name" ∈ ["Name", "SRN", "Status"]) ∧
      (generate_qr_codes_from_csv "x.csv"
          (some [["Name", "SRN", "Status"]])).outcome = RunOutcome.success :=
  ⟨empty_file_aborts_header_only_succeeds "x.csv", by decide,
   ((empty_file_aborts_header_only_succeeds "x.csv").2
     ["Name", "SRN", "Status"] (by decide) (by decide)).1⟩

/-- **C5.** For every input file whose header lacks a required column
(Name or SRN), the run aborts with the SchemaError-class diagnostic (the
ValueError raised before the per-record loop, caught and printed at the
top level), and zero image files are written in that run. -/
theorem missing_column_aborts (path : String) (header : List String)
    (rows : List (List String))
    (h : "Name" ∉ header ∨ "SRN" ∉ header) :
    (generate_qr_codes_from_csv path (some (header :: rows))).outcome
        = RunOutcome.exceptionCaught
            "CSV file must contain 'Name' and 'SRN' columns" ∧
      (generate_qr_codes_from_csv path (some (header :: rows))).console
        = ["Error: CSV file must contain 'Name' and 'SRN' columns"] ∧
      (generate_qr_codes_from_csv path (some (header :: rows))).writes = [] := by
  simp [generate_qr_codes_from_csv, generate_qr_codes_from_csv_with,
    read_csv, h]

/-- Witness for C5 on a header missing the Name column. -/
theorem missing_column_aborts_witness :
    ("Name" ∉ ["SRN"] ∨ "SRN" ∉ ["SRN"]) ∧
      ((generate_qr_codes_from_csv "x.csv"
            (some [["SRN"], ["X1"]])).outcome
          = RunOutcome.exceptionCaught
              "CSV file must contain 'Name' and 'SRN' columns" ∧
        (generate_qr_codes_from_csv "x.csv"
              (some [["SRN"], ["X1"]])).console
            = ["Error: CSV file must contain 'Name' and 'SRN' columns"] ∧
        (generate_qr_codes_from_csv "x.csv"
            (some [["SRN"], ["X1"]])).writes = []) :=
  ⟨by decide,
   missing_column_aborts "x.csv" ["SRN"] [["X1"]] (by decide)⟩

/-- **C6.** For every nonexistent input path, the run aborts with the
NotFoundError-class diagnostic, zero images are written, and the output
directory `qr_codes` is nonetheless created, since `mkdir` runs before
the file is loaded. -/
theorem missing_file_aborts_dir_created (path : String) :
    generate_qr_codes_from_csv path none =
      ⟨true, [],
       ["Error: CSV file '" ++ path ++ "' not found!"],
       RunOutcome.fileNotFoundError, 0⟩ := rfl

/-- **C7.** Running the generator twice on the same input yields a
byte-identical set of output files: the run's write list is a function of
the input alone (the encoding is deterministic in payload and fixed
parameters), and replaying it over the filesystem left by the first run
changes nothing — same filenames, same content. -/
theorem run_twice_byte_identical (path : String)
    (file : Option (List (List String))) (fs : FileSystem) :
    applyWrites
        (applyWrites fs (generate_qr_codes_from_csv path file).writes)
        (generate_qr_codes_from_csv path file).writes
      = applyWrites fs (generate_qr_codes_from_csv path file).writes :=
  applyWrites_replay fs (generate_qr_codes_from_csv path file).writes

/-- **C8.** For every input containing two records with the same trimmed
identifier, both records write to the same path (the later write
overwriting the earlier), the final directory holds exactly one file for
that identifier, and its content is the image of that identifier. -/
theorem duplicate_identifier_overwrites (path : String)
    (header : List String) (rows : List (List String))
    (hn : "Name" ∈ header) (hs : "SRN" ∈ header)
    (i j : Nat) (ri rj : List String) (_hij : i < j)
    (hri : rows[i]? = some ri) (hrj : rows[j]? = some rj)
    (heq : identifierOf header (ri.map parseCell)
      = identifierOf header (rj.map parseCell)) :
    ((generate_qr_codes_from_csv path (some (header :: rows))).writes[i]?
        = some (outPath (identifierOf header (rj.map parseCell)),
            make_image fixedConfig "black" "white"
              (identifierOf header (rj.map parseCell))) ∧
      (generate_qr_codes_from_csv path (some (header :: rows))).writes[j]?
        = some (outPath (identifierOf header (rj.map parseCell)),
            make_image fixedConfig "black" "white"
              (identifierOf header (rj.map parseCell)))) ∧
    (∀ fs : FileSystem,
      applyWrites fs (generate_qr_codes_from_csv path (some (header :: rows))).writes
          (outPath (identifierOf header (rj.map parseCell)))
        = some (make_image fixedConfig "black" "white"
            (identifierOf header (rj.map parseCell)))) ∧
    ((generate_qr_codes_from_csv path
          (some (header :: rows))).writes.map Prod.fst).dedup.count
        (outPath (identifierOf header (rj.map parseCell))) = 1 := by
  rw [generate_ok path header rows hn hs]
  set s := identifierOf header (rj.map parseCell) with hsdef
  have hmem : outPath s ∈
      (rows.map fun r => (processRow header (r.map parseCell)).1).map Prod.fst := by
    simp only [List.map_map, List.mem_map]
    exact ⟨rj, List.getElem?_mem hrj, by rw [Function.comp_apply, processRow_fst]⟩
  refine ⟨⟨?_, ?_⟩, ?_, ?_⟩
  · rw [List.getElem?_map, hri, Option.map_some', processRow_fst, heq]
  · rw [List.getElem?_map, hrj, Option.map_some', processRow_fst]
  · intro fs
    refine applyWrites_all_eq fs _ _ _ hmem ?_
    intro w hw hwp
    simp only [List.mem_map] at hw
    obtain ⟨r, -, hr⟩ := hw
    rw [processRow_fst] at hr
    subst hr
    simp only at hwp ⊢
    rw [outPath_injective hwp]
  · rw [List.count_dedup, if_pos hmem]

/-- Witness for C8 on an input whose two rows both carry identifier X1. -/
theorem duplicate_identifier_overwrites_witness :
    ("Name" ∈ ["Name", "SRN"]) ∧ ("SRN" ∈ ["Name", "SRN"]) ∧ (0 < 1) ∧
      ([["Ann", "X1"], ["Bob", " X1 "]][0]? = some ["Ann", "X1"]) ∧
      ([["Ann", "X1"], ["Bob", " X1 "]][1]? = some ["Bob", " X1 "]) ∧
      (identifierOf ["Name", "SRN"] (["Ann", "X1"].map parseCell)
        = identifierOf ["Name", "SRN"] (["Bob", " X1 "].map parseCell)) ∧
      (((generate_qr_codes_from_csv "x.csv"
            (some [["Name", "SRN"], ["Ann", "X1"], ["Bob", " X1 "]])).writes.map
          Prod.fst).dedup.count
        (outPath (identifierOf ["Name", "SRN"] (["Bob", " X1 "].map parseCell))) = 1) :=
  ⟨by decide, by decide, by decide, by decide, by decide, by decide,
   (duplicate_identifier_overwrites "x.csv" ["Name", "SRN"]
     [["Ann", "X1"], ["Bob", " X1 "]] (by decide) (by decide) 0 1
     ["Ann", "X1"] ["Bob", " X1 "] (by decide) (by decide) (by decide)
     (by decide)).2.2⟩

/-- **C9.** Every failure — file-not-found, empty file, missing columns,
or an exception raised inside the per-record loop (the ProcessingError
class: encoder or disk-write failure, for any failure oracle) — is caught
only at the top-level handler and reported as a single one-line
`Error: ...` diagnostic: the console is the progress lines already
printed, none of which is a diagnostic, followed by exactly one trailing
error line, and the process still exits with code 0 — no non-zero exit
code distinguishes any error kind from success. -/
theorem failure_single_diagnostic_normal_exit (path : String)
    (file : Option (List (List String))) (failAt : FailureOracle)
    (h : (generate_qr_codes_from_csv_with path file failAt).outcome
      ≠ RunOutcome.success) :
    (generate_qr_codes_from_csv_with path file failAt).exitCode = 0 ∧
      ∃ pre msg,
        (generate_qr_codes_from_csv_with path file failAt).console
            = pre ++ ["Error: " ++ msg] ∧
          ∀ l ∈ pre, ¬ ∃ m : String, l = "Error: " ++ m := by
  match file with
  | none =>
      refine ⟨rfl, [], "CSV file '" ++ path ++ "' not found!", ?_, by simp⟩
      show ["Error: CSV file '" ++ path ++ "' not found!"] = _
      have hlit : "Error: CSV file '" = ("Error: " : String) ++ "CSV file '" := by
        decide
      rw [String.append_assoc, hlit, String.append_assoc,
        String.append_assoc, List.nil_append]
  | some [] =>
      exact ⟨rfl, [], "The CSV file is empty!", rfl, by simp⟩
  | some (header :: rows) =>
      by_cases hcols : "Name" ∉ header ∨ "SRN" ∉ header
      · refine ⟨?_, [], "CSV file must contain 'Name' and 'SRN' columns",
          ?_, by simp⟩ <;>
          simp [generate_qr_codes_from_csv_with, read_csv, hcols]
      · push_neg at hcols
        rw [generate_with_ok path header rows failAt hcols.1 hcols.2] at h ⊢
        cases hE : (runRows header failAt
            (rows.map (fun r => r.map parseCell)) 0).2.2 with
        | none =>
            rw [hE] at h
            exact absurd rfl h
        | some msg =>
            refine ⟨rfl,
              ("Found " ++ toString rows.length ++ " records in the CSV file")
                :: (runRows header failAt
                    (rows.map (fun r => r.map parseCell)) 0).2.1,
              msg, rfl, ?_⟩
            intro l hl
            rcases List.mem_cons.mp hl with hl | hl
            · exact hl ▸ not_error_line _ 'F' (found_line_head rows.length)
                (by decide)
            · obtain ⟨r, hr⟩ := runRows_lines header failAt
                (rows.map (fun r => r.map parseCell)) 0 l hl
              exact hr ▸ not_error_line _ 'G' (processRow_snd_head header r)
                (by decide)

/-- Witness for C9 at a mid-loop failure: the second row's body raises,
after one progress line was printed. -/
theorem failure_single_diagnostic_normal_exit_witness :
    ((generate_qr_codes_from_csv_with "paid_list_with_status.csv"
          (some [["Name", "SRN"], ["Ann", "X1"], ["Bob", "Y2"]])
          (fun k => if k = 1 then some "QR write failure" else none)).outcome
        ≠ RunOutcome.success) ∧
      ((generate_qr_codes_from_csv_with "paid_list_with_status.csv"
            (some [["Name", "SRN"], ["Ann", "X1"], ["Bob", "Y2"]])
            (fun k => if k = 1 then some "QR write failure" else none)).exitCode
          = 0 ∧
        ∃ pre msg,
          (generate_qr_codes_from_csv_with "paid_list_with_status.csv"
                (some [["Name", "SRN"], ["Ann", "X1"], ["Bob", "Y2"]])
                (fun k => if k = 1 then some "QR write failure" else none)).console
              = pre ++ ["Error: " ++ msg] ∧
            ∀ l ∈ pre, ¬ ∃ m : String, l = "Error: " ++ m) :=
  ⟨by decide,
   failure_single_diagnostic_normal_exit "paid_list_with_status.csv"
     (some [["Name", "SRN"], ["Ann", "X1"], ["Bob", "Y2"]])
     (fun k => if k = 1 then some "QR write failure" else none) (by decide)⟩

/-- **C10.** A row whose SRN cell is empty or missing is not processed
with an empty-string identifier: pandas loads the cell as NaN, whose text
coercion is the literal string "nan", so the payload becomes "nan" and the
output file is `qr_codes/nan.png`. -/
theorem empty_srn_cell_becomes_nan (path : String) (header : List String)
    (rows : List (List String)) (hn : "Name" ∈ header) (hs : "SRN" ∈ header)
    (k : Nat) (r : List String) (hr : rows[k]? = some r)
    (hcell : getCell header (r.map parseCell) "SRN" = Cell.nan) :
    (generate_qr_codes_from_csv path (some (header :: rows))).writes[k]?
      = some ("qr_codes/nan.png",
          make_image fixedConfig "black" "white" "nan") := by
  rw [generate_ok path header rows hn hs]
  simp only [List.getElem?_map, hr, Option.map_some', processRow_fst]
  have hid : identifierOf header (r.map parseCell) = "nan" := by
    unfold identifierOf
    rw [hcell]
    decide
  rw [hid]
  rfl

/-- Witness for C10 on a row with an empty SRN field. -/
theorem empty_srn_cell_becomes_nan_witness :
    ("Name" ∈ ["Name", "SRN"]) ∧ ("SRN" ∈ ["Name", "SRN"]) ∧
      ([["Bob", ""]][0]? = some ["Bob", ""]) ∧
      (getCell ["Name", "SRN"] (["Bob", ""].map parseCell) "SRN" = Cell.nan) ∧
      ((generate_qr_codes_from_csv "x.csv"
            (some [["Name", "SRN"], ["Bob", ""]])).writes[0]?
        = some ("qr_codes/nan.png",
            make_image fixedConfig "black" "white" "nan")) :=
  ⟨by decide, by decide, by decide, by decide,
   empty_srn_cell_becomes_nan "x.csv" ["Name", "SRN"] [["Bob", ""]]
     (by decide) (by decide) 0 ["Bob", ""] (by decide) (by decide)⟩

end QrGen
